import Mathlib

/-!
Shallow embedding of the PACT escrow v2 engine (`src/instructions_v2.rs`).

Pubkeys (32-byte addresses) are modeled abstractly as naturals with `0` as
the all-zero sentinel ("no arbitrator").  Lamport balances and the u64
record fields are naturals; overflow is modeled explicitly where the Rust
code is unchecked (`% 2^64`, release-mode wrapping) and via `checked_add` /
`checked_sub` where the code uses checked arithmetic.

Error names follow the concrete `ProgramError` values returned by the code.
The spec's error taxonomy maps onto them as follows:
  `MissingAuthorization` -> `missingRequiredSignature`,
  `InvalidRecord` / `InvalidState` -> `invalidAccountData`,
  `ArithmeticFault` -> `arithmeticOverflow` / `insufficientFunds`,
  `MalformedInput` -> `invalidInstructionData`.

Each handler `X.process` mirrors the Rust `X::process` line by line: the
same checks in the same order, with the mutations it performs before a
failing step exposed in the returned `Raw.state` (the host environment
discards them; see `commit`).  Account-count checks (`NotEnoughAccountKeys`)
are outside the model: each operation carries exactly the accounts the
handler reads.  Signature presence is a boolean per signing account.
-/


abbrev PK := Nat

def U64LIM : Nat := 18446744073709551616

def ESCROW_DISC : Nat := 0x5041435445534352

def ESCROW_SIZE : Nat := 195

def STATUS_ACTIVE : Nat := 0

def STATUS_DELIVERED : Nat := 1

def STATUS_ACCEPTED : Nat := 2

def STATUS_DISPUTED : Nat := 3

def STATUS_RELEASED : Nat := 4

def STATUS_REFUNDED : Nat := 5

def FLAG_SELLER_DELIVERED : Nat := 1

def FLAG_BUYER_ACCEPTED : Nat := 2

def FLAG_BUYER_DISPUTED : Nat := 4

def FLAG_SELLER_DISPUTED : Nat := 8

/-- The escrow record, field for field the 195-byte layout of
`instructions_v2.rs` (offsets 0,8,40,72,104,136,144,152,160,192,193,194). -/
structure EscrowRec where
  disc : Nat
  buyer : PK
  seller : PK
  arbitrator : PK
  mint : PK
  amount : Nat
  created_at : Nat
  timeout_seconds : Nat
  terms_hash : Nat
  status : Nat
  flags : Nat
  bump : Nat
deriving DecidableEq, Repr

/-- Escrow record plus the lamport balances of the escrow account and of the
(buyer, seller) accounts presented with the instruction. -/
structure EscrowState where
  escrow_data : EscrowRec
  escrow_lamports : Nat
  buyer_lamports : Nat
  seller_lamports : Nat
deriving DecidableEq, Repr

/-- The `ProgramError` values the v2 handlers return. -/
inductive PErr where
  | missingRequiredSignature
  | invalidAccountData
  | invalidInstructionData
  | arithmeticOverflow
  | insufficientFunds
deriving DecidableEq, Repr

/-- Result of raw (uncommitted) execution: the error if any, and the state
as the handler left it, including mutations made before a failing step. -/
structure Raw where
  result : Option PErr
  state : EscrowState
deriving DecidableEq, Repr

def checked_add (a b : Nat) : Option Nat :=
  if a + b < U64LIM then some (a + b) else none

def checked_sub (a b : Nat) : Option Nat :=
  if b ≤ a then some (a - b) else none

/-- The `timeout_reached` test of `RefundV2::process` (line 418): the deadline
`created_at + timeout_seconds` is an unchecked u64 addition, so it wraps
modulo 2^64 in release builds. -/
def timeoutReached (now created_at timeout_seconds : Nat) : Bool :=
  decide (0 < timeout_seconds) &&
    decide ((created_at + timeout_seconds) % U64LIM ≤ now)

def MarkDelivered.process (seller_key : PK) (seller_signed : Bool)
    (s : EscrowState) : Raw :=
  if seller_signed = false then ⟨some .missingRequiredSignature, s⟩
  else if s.escrow_data.disc ≠ ESCROW_DISC then ⟨some .invalidAccountData, s⟩
  else if seller_key ≠ s.escrow_data.seller then ⟨some .invalidAccountData, s⟩
  else if s.escrow_data.status ≠ STATUS_ACTIVE then ⟨some .invalidAccountData, s⟩
  else ⟨none, { s with escrow_data := { s.escrow_data with
      flags := s.escrow_data.flags ||| FLAG_SELLER_DELIVERED,
      status := STATUS_DELIVERED } }⟩

def AcceptDelivery.process (buyer_key seller_key : PK) (buyer_signed : Bool)
    (s : EscrowState) : Raw :=
  if buyer_signed = false then ⟨some .missingRequiredSignature, s⟩
  else if s.escrow_data.disc ≠ ESCROW_DISC then ⟨some .invalidAccountData, s⟩
  else if buyer_key ≠ s.escrow_data.buyer ∨ seller_key ≠ s.escrow_data.seller then
    ⟨some .invalidAccountData, s⟩
  else if s.escrow_data.status ≠ STATUS_DELIVERED then ⟨some .invalidAccountData, s⟩
  else
    let amount := s.escrow_data.amount
    let s1 := { s with escrow_data := { s.escrow_data with
        flags := s.escrow_data.flags ||| FLAG_BUYER_ACCEPTED,
        status := STATUS_RELEASED } }
    match checked_add s1.seller_lamports amount with
    | none => ⟨some .arithmeticOverflow, s1⟩
    | some sl =>
      let s2 := { s1 with seller_lamports := sl }
      match checked_sub s2.escrow_lamports amount with
      | none => ⟨some .insufficientFunds, s2⟩
      | some el => ⟨none, { s2 with escrow_lamports := el }⟩

def ReleaseV2.process (buyer_key seller_key : PK) (buyer_signed : Bool)
    (s : EscrowState) : Raw :=
  if buyer_signed = false then ⟨some .missingRequiredSignature, s⟩
  else if s.escrow_data.disc ≠ ESCROW_DISC then ⟨some .invalidAccountData, s⟩
  else if buyer_key ≠ s.escrow_data.buyer ∨ seller_key ≠ s.escrow_data.seller then
    ⟨some .invalidAccountData, s⟩
  else if s.escrow_data.status = STATUS_DISPUTED ∨ s.escrow_data.status = STATUS_RELEASED ∨
      s.escrow_data.status = STATUS_REFUNDED then
    ⟨some .invalidAccountData, s⟩
  else
    let amount := s.escrow_data.amount
    let s1 := { s with escrow_data := { s.escrow_data with status := STATUS_RELEASED } }
    match checked_add s1.seller_lamports amount with
    | none => ⟨some .arithmeticOverflow, s1⟩
    | some sl =>
      let s2 := { s1 with seller_lamports := sl }
      match checked_sub s2.escrow_lamports amount with
      | none => ⟨some .insufficientFunds, s2⟩
      | some el => ⟨none, { s2 with escrow_lamports := el }⟩

def RefundV2.process (authority_key buyer_key seller_key : PK)
    (authority_signed : Bool) (now : Nat) (s : EscrowState) : Raw :=
  if authority_signed = false then ⟨some .missingRequiredSignature, s⟩
  else if s.escrow_data.disc ≠ ESCROW_DISC then ⟨some .invalidAccountData, s⟩
  else if buyer_key ≠ s.escrow_data.buyer ∨ seller_key ≠ s.escrow_data.seller then
    ⟨some .invalidAccountData, s⟩
  else if s.escrow_data.status = STATUS_RELEASED ∨ s.escrow_data.status = STATUS_REFUNDED then
    ⟨some .invalidAccountData, s⟩
  else
    let is_seller := authority_key = s.escrow_data.seller
    let is_buyer := authority_key = s.escrow_data.buyer
    let is_arbitrator := authority_key = s.escrow_data.arbitrator
    let can_refund := is_seller ∨
      (is_buyer ∧ (timeoutReached now s.escrow_data.created_at s.escrow_data.timeout_seconds = true ∨
        s.escrow_data.status = STATUS_ACTIVE)) ∨
      (is_arbitrator ∧ s.escrow_data.status = STATUS_DISPUTED)
    if ¬can_refund then ⟨some .invalidAccountData, s⟩
    else
      let amount := s.escrow_data.amount
      let s1 := { s with escrow_data := { s.escrow_data with status := STATUS_REFUNDED } }
      match checked_add s1.buyer_lamports amount with
      | none => ⟨some .arithmeticOverflow, s1⟩
      | some bl =>
        let s2 := { s1 with buyer_lamports := bl }
        match checked_sub s2.escrow_lamports amount with
        | none => ⟨some .insufficientFunds, s2⟩
        | some el => ⟨none, { s2 with escrow_lamports := el }⟩

def Dispute.process (authority_key : PK) (authority_signed : Bool)
    (s : EscrowState) : Raw :=
  if authority_signed = false then ⟨some .missingRequiredSignature, s⟩
  else if s.escrow_data.disc ≠ ESCROW_DISC then ⟨some .invalidAccountData, s⟩
  else
    let is_buyer := authority_key = s.escrow_data.buyer
    let is_seller := authority_key = s.escrow_data.seller
    if ¬is_buyer ∧ ¬is_seller then ⟨some .invalidAccountData, s⟩
    else if s.escrow_data.status ≠ STATUS_ACTIVE ∧ s.escrow_data.status ≠ STATUS_DELIVERED then
      ⟨some .invalidAccountData, s⟩
    else
      let fl := if is_buyer then FLAG_BUYER_DISPUTED else FLAG_SELLER_DISPUTED
      ⟨none, { s with escrow_data := { s.escrow_data with
          flags := s.escrow_data.flags ||| fl,
          status := STATUS_DISPUTED } }⟩

def Arbitrate.process (arbitrator_key buyer_key seller_key : PK)
    (arbitrator_signed : Bool) (data : List Nat) (s : EscrowState) : Raw :=
  if arbitrator_signed = false then ⟨some .missingRequiredSignature, s⟩
  else match data with
  | [] => ⟨some .invalidInstructionData, s⟩
  | decision :: _ =>
    if s.escrow_data.disc ≠ ESCROW_DISC then ⟨some .invalidAccountData, s⟩
    else if arbitrator_key ≠ s.escrow_data.arbitrator then ⟨some .invalidAccountData, s⟩
    else if buyer_key ≠ s.escrow_data.buyer ∨ seller_key ≠ s.escrow_data.seller then
      ⟨some .invalidAccountData, s⟩
    else if s.escrow_data.arbitrator = 0 then ⟨some .invalidAccountData, s⟩
    else if s.escrow_data.status ≠ STATUS_DISPUTED then ⟨some .invalidAccountData, s⟩
    else if decision = 0 then
      let amount := s.escrow_data.amount
      let s1 := { s with escrow_data := { s.escrow_data with status := STATUS_REFUNDED } }
      match checked_add s1.buyer_lamports amount with
      | none => ⟨some .arithmeticOverflow, s1⟩
      | some bl =>
        let s2 := { s1 with buyer_lamports := bl }
        match checked_sub s2.escrow_lamports amount with
        | none => ⟨some .insufficientFunds, s2⟩
        | some el => ⟨none, { s2 with escrow_lamports := el }⟩
    else
      let amount := s.escrow_data.amount
      let s1 := { s with escrow_data := { s.escrow_data with status := STATUS_RELEASED } }
      match checked_add s1.seller_lamports amount with
      | none => ⟨some .arithmeticOverflow, s1⟩
      | some sl =>
        let s2 := { s1 with seller_lamports := sl }
        match checked_sub s2.escrow_lamports amount with
        | none => ⟨some .insufficientFunds, s2⟩
        | some el => ⟨none, { s2 with escrow_lamports := el }⟩

/-- One post-creation operation, with the signer accounts it presents. -/
inductive Op where
  | markDelivered (seller_key : PK) (seller_signed : Bool)
  | acceptDelivery (buyer_key seller_key : PK) (buyer_signed : Bool)
  | release (buyer_key seller_key : PK) (buyer_signed : Bool)
  | refund (authority_key buyer_key seller_key : PK) (authority_signed : Bool)
      (now : Nat)
  | dispute (authority_key : PK) (authority_signed : Bool)
  | arbitrate (arbitrator_key buyer_key seller_key : PK)
      (arbitrator_signed : Bool) (data : List Nat)
deriving DecidableEq, Repr

def runRaw : Op → EscrowState → Raw
  | .markDelivered k sg, s => MarkDelivered.process k sg s
  | .acceptDelivery b k sg, s => AcceptDelivery.process b k sg s
  | .release b k sg, s => ReleaseV2.process b k sg s
  | .refund a b k sg now, s => RefundV2.process a b k sg now s
  | .dispute a sg, s => Dispute.process a sg s
  | .arbitrate ar b k sg d, s => Arbitrate.process ar b k sg d s

/-- Result surfaced to the caller. -/
def invoke (op : Op) (s : EscrowState) : Except PErr EscrowState :=
  match runRaw op s with
  | ⟨none, t⟩ => .ok t
  | ⟨some e, _⟩ => .error e

/-- Modelled from the spec: the host execution environment makes each
invocation atomic — on any failure every write of the attempt is discarded
and the persisted state stays as it was (spec §5, §7).  This commit layer
is host behavior, not code of `src/`. -/
def commit (op : Op) (s : EscrowState) : EscrowState :=
  match runRaw op s with
  | ⟨none, t⟩ => t
  | ⟨some _, _⟩ => s

def isTerminal (st : Nat) : Prop :=
  st = STATUS_RELEASED ∨ st = STATUS_REFUNDED

instance (st : Nat) : Decidable (isTerminal st) := by
  unfold isTerminal; infer_instance

def isOkE (r : Except PErr EscrowState) : Bool :=
  match r with
  | .ok _ => true
  | .error _ => false

def errOf (r : Except PErr EscrowState) : Option PErr :=
  match r with
  | .ok _ => none
  | .error e => some e

/-- A well-formed invocation: the signer account signed, the presented
addresses match the stored record fields, the type tag is valid, and the
Arbitrate payload is nonempty.  Only role/status questions remain open. -/
def WFOp : Op → EscrowState → Prop
  | .markDelivered k sg, s =>
      sg = true ∧ k = s.escrow_data.seller ∧ s.escrow_data.disc = ESCROW_DISC
  | .acceptDelivery b k sg, s =>
      sg = true ∧ b = s.escrow_data.buyer ∧ k = s.escrow_data.seller ∧
        s.escrow_data.disc = ESCROW_DISC
  | .release b k sg, s =>
      sg = true ∧ b = s.escrow_data.buyer ∧ k = s.escrow_data.seller ∧
        s.escrow_data.disc = ESCROW_DISC
  | .refund _ b k sg _, s =>
      sg = true ∧ b = s.escrow_data.buyer ∧ k = s.escrow_data.seller ∧
        s.escrow_data.disc = ESCROW_DISC
  | .dispute a sg, s =>
      sg = true ∧ (a = s.escrow_data.buyer ∨ a = s.escrow_data.seller) ∧
        s.escrow_data.disc = ESCROW_DISC
  | .arbitrate ar b k sg d, s =>
      sg = true ∧ ar = s.escrow_data.arbitrator ∧ b = s.escrow_data.buyer ∧
        k = s.escrow_data.seller ∧ s.escrow_data.disc = ESCROW_DISC ∧ d ≠ []

instance (op : Op) (s : EscrowState) : Decidable (WFOp op s) := by
  cases op <;> (unfold WFOp; infer_instance)

/-- A concrete record used by witnesses: buyer 1, seller 2, arbitrator 3. -/
def baseRec : EscrowRec :=
  { disc := ESCROW_DISC, buyer := 1, seller := 2, arbitrator := 3, mint := 0,
    amount := 100000000, created_at := 1000000, timeout_seconds := 259200,
    terms_hash := 0, status := STATUS_ACTIVE, flags := 0, bump := 255 }

def baseState : EscrowState :=
  { escrow_data := baseRec, escrow_lamports := 100000000,
    buyer_lamports := 5, seller_lamports := 7 }

def stateWithStatus (st : Nat) : EscrowState :=
  { baseState with escrow_data := { baseRec with status := st } }

/-- Which party the terminal movement of an operation credits
(`true` = seller), per §4.4: AcceptDelivery/Release/Arbitrate-release pay
the seller, Refund/Arbitrate-refund pay the buyer. -/
def creditsSeller : Op → Bool
  | .acceptDelivery _ _ _ => true
  | .release _ _ _ => true
  | .arbitrate _ _ _ _ [] => false
  | .arbitrate _ _ _ _ (d :: _) => decide (d ≠ 0)
  | _ => false

def releasedState : EscrowState :=
  { escrow_data := { baseRec with status := STATUS_RELEASED },
    escrow_lamports := 0, buyer_lamports := 5,
    seller_lamports := 7 + 100000000 }

/-- Signature-presence flag carried by an operation's signer account. -/
def signerFlag : Op → Bool
  | .markDelivered _ sg => sg
  | .acceptDelivery _ _ sg => sg
  | .release _ _ sg => sg
  | .refund _ _ _ sg _ => sg
  | .dispute _ sg => sg
  | .arbitrate _ _ _ sg _ => sg

def overflowState : EscrowState :=
  { escrow_data := { baseRec with
      created_at := 18446744073709551615,
      timeout_seconds := 2, status := STATUS_DELIVERED },
    escrow_lamports := 100000000, buyer_lamports := 5, seller_lamports := 7 }

/-- Little-endian value of a byte list (least significant byte first). -/
def le64 (bs : List Nat) : Nat :=
  bs.foldr (fun b acc => b + 256 * acc) 0

/-- Reads a u64 from the raw account buffer (`read_u64`).  `none` models the Rust panic
when the slice `data[offset..offset+8]` is out of bounds: the buffer length
is never validated by the code. -/
def read_u64 (data : List Nat) (offset : Nat) : Option Nat :=
  if offset + 8 ≤ data.length then some (le64 ((data.drop offset).take 8))
  else none

/-- Reads a pubkey from the raw account buffer (`read_pubkey`); `none` models the Rust panic
on an out-of-bounds slice. -/
def read_pubkey (data : List Nat) (offset : Nat) : Option (List Nat) :=
  if offset + 32 ≤ data.length then some ((data.drop offset).take 32)
  else none

/-- Outcome of byte-level processing: success with the updated buffer, a
program error, or an out-of-bounds access (a Rust panic, which aborts the
program without producing a `ProgramError`). -/
inductive ByteOut where
  | ok (data : List Nat)
  | err (e : PErr)
  | aborted
deriving DecidableEq, Repr

/-- The byte-level `MarkDelivered::process`, reads and writes in
source order: discriminator (offset 0), stored seller (offset 40), status
(offset 192), then flags |= at 193 and status := Delivered at 192. -/
def MarkDelivered.processBytes (seller_key : List Nat) (seller_signed : Bool)
    (data : List Nat) : ByteOut :=
  if seller_signed = false then .err .missingRequiredSignature
  else match read_u64 data 0 with
  | none => .aborted
  | some disc =>
    if disc ≠ ESCROW_DISC then .err .invalidAccountData
    else match read_pubkey data 40 with
    | none => .aborted
    | some stored_seller =>
      if seller_key ≠ stored_seller then .err .invalidAccountData
      else match data[192]? with
      | none => .aborted
      | some status =>
        if status ≠ STATUS_ACTIVE then .err .invalidAccountData
        else match data[193]? with
        | none => .aborted
        | some fl =>
          .ok ((data.set 193 (fl ||| FLAG_SELLER_DELIVERED)).set 192
            STATUS_DELIVERED)

/-- The discriminator constant as its little-endian byte encoding. -/
def discBytes : List Nat := [0x52, 0x43, 0x53, 0x45, 0x54, 0x43, 0x41, 0x50]

/-- A 194-byte buffer (one byte short of the fixed 195-byte size) carrying
a valid tag, an all-zero stored seller and Active status. -/
def shortEscrowBytes : List Nat := discBytes ++ List.replicate 186 0

def zeros32 : List Nat := List.replicate 32 0

theorem invoke_eq_ok_iff (op : Op) (s t : EscrowState) :
    invoke op s = .ok t ↔ runRaw op s = ⟨none, t⟩ := by
  unfold invoke
  cases hr : runRaw op s with
  | mk result state => cases result <;> simp_all

theorem invoke_eq_error_iff (op : Op) (s : EscrowState) (e : PErr) :
    invoke op s = .error e ↔ (runRaw op s).result = some e := by
  unfold invoke
  cases hr : runRaw op s with
  | mk result state => cases result <;> simp_all

/-- C2: once a record's status is Released or Refunded, every well-formed
invocation of MarkDelivered, AcceptDelivery, Release, Refund, Dispute or
Arbitrate fails with the status-violation error (`InvalidState`, realized
as `invalidAccountData`) and leaves the record and all balances unchanged. -/
theorem c2_terminal_records_reject_all_ops (op : Op) (s : EscrowState)
    (hwf : WFOp op s) (hterm : isTerminal s.escrow_data.status) :
    invoke op s = .error .invalidAccountData ∧ (runRaw op s).state = s := by
  have hr : runRaw op s = ⟨some .invalidAccountData, s⟩ := by
    cases op with
    | arbitrate ar b k sg d =>
        cases d with
        | nil => simp_all [WFOp]
        | cons d0 rest =>
            rcases hterm with h | h <;>
              simp_all [WFOp, runRaw, Arbitrate.process, STATUS_DISPUTED,
                STATUS_RELEASED, STATUS_REFUNDED]
    | markDelivered k sg =>
        rcases hterm with h | h <;>
          simp_all [WFOp, runRaw, MarkDelivered.process, STATUS_ACTIVE,
            STATUS_RELEASED, STATUS_REFUNDED]
    | acceptDelivery b k sg =>
        rcases hterm with h | h <;>
          simp_all [WFOp, runRaw, AcceptDelivery.process, STATUS_DELIVERED,
            STATUS_RELEASED, STATUS_REFUNDED]
    | release b k sg =>
        rcases hterm with h | h <;>
          simp_all [WFOp, runRaw, ReleaseV2.process, STATUS_DISPUTED,
            STATUS_RELEASED, STATUS_REFUNDED]
    | refund a b k sg now =>
        rcases hterm with h | h <;>
          simp_all [WFOp, runRaw, RefundV2.process, STATUS_RELEASED,
            STATUS_REFUNDED]
    | dispute a sg =>
        rcases hterm with h | h <;>
          simp_all [WFOp, runRaw, Dispute.process, STATUS_ACTIVE,
            STATUS_DELIVERED, STATUS_RELEASED, STATUS_REFUNDED]
  exact ⟨by rw [invoke_eq_error_iff, hr], by rw [hr]⟩

theorem c2_terminal_records_reject_all_ops_witness :
    WFOp (Op.markDelivered 2 true) (stateWithStatus STATUS_RELEASED) ∧
      isTerminal (stateWithStatus STATUS_RELEASED).escrow_data.status ∧
      invoke (Op.markDelivered 2 true) (stateWithStatus STATUS_RELEASED) =
        .error .invalidAccountData :=
  ⟨by decide, by decide,
    (c2_terminal_records_reject_all_ops _ _ (by decide) (by decide)).1⟩

/-- C7: with `created_at = T = 1000000` and `timeout_seconds = 259200`, on a
Delivered record a buyer-signed Refund is denied at `now = T + 259199` and
permitted at `now = T + 259200`: the comparison is exact at the boundary. -/
theorem c7_timeout_boundary :
    invoke (Op.refund 1 1 2 true (1000000 + 259199))
        (stateWithStatus STATUS_DELIVERED) =
      .error .invalidAccountData ∧
    isOkE (invoke (Op.refund 1 1 2 true (1000000 + 259200))
        (stateWithStatus STATUS_DELIVERED)) = true := by
  constructor <;> rfl

theorem checked_add_eq_some {a b c : Nat} :
    checked_add a b = some c ↔ a + b < U64LIM ∧ c = a + b := by
  unfold checked_add; split_ifs with h <;> simp [h, eq_comm]

theorem checked_sub_eq_some {a b c : Nat} :
    checked_sub a b = some c ↔ b ≤ a ∧ c = a - b := by
  unfold checked_sub; split_ifs with h <;> simp [h, eq_comm]

/-- C1: every successful operation whose transition reaches a terminal
status performs exactly one balance movement: the full stored `amount`
leaves the escrow's custodial balance and is credited to the seller
(AcceptDelivery, Release, Arbitrate-release) or to the buyer (Refund,
Arbitrate-refund), so custodial + buyer + seller lamports are conserved. -/
theorem c1_terminal_transition_conserves_balances (op : Op) (s t : EscrowState)
    (hok : invoke op s = .ok t)
    (hterm : isTerminal t.escrow_data.status) :
    t.escrow_data.amount = s.escrow_data.amount ∧
    t.escrow_lamports + s.escrow_data.amount = s.escrow_lamports ∧
    (if creditsSeller op then
        t.seller_lamports = s.seller_lamports + s.escrow_data.amount ∧
        t.buyer_lamports = s.buyer_lamports
      else
        t.buyer_lamports = s.buyer_lamports + s.escrow_data.amount ∧
        t.seller_lamports = s.seller_lamports) ∧
    t.escrow_lamports + t.buyer_lamports + t.seller_lamports =
      s.escrow_lamports + s.buyer_lamports + s.seller_lamports := by
  rw [invoke_eq_ok_iff] at hok
  cases op with
  | markDelivered k sg =>
      simp only [runRaw, MarkDelivered.process] at hok
      split_ifs at hok <;>
        simp only [Raw.mk.injEq, Option.some_ne_none, false_and,
          eq_self_iff_true, true_and] at hok
      subst hok
      simp [isTerminal, STATUS_DELIVERED, STATUS_RELEASED, STATUS_REFUNDED] at hterm
  | dispute a sg =>
      simp only [runRaw, Dispute.process] at hok
      split_ifs at hok <;>
        simp only [Raw.mk.injEq, Option.some_ne_none, false_and,
          eq_self_iff_true, true_and] at hok <;>
        (subst hok
         simp [isTerminal, STATUS_DISPUTED, STATUS_RELEASED, STATUS_REFUNDED] at hterm)
  | acceptDelivery b k sg =>
      simp only [runRaw, AcceptDelivery.process] at hok
      split_ifs at hok <;>
        try simp only [Raw.mk.injEq, Option.some_ne_none, false_and] at hok
      split at hok <;> rename_i hadd
      · simp at hok
      split at hok <;> rename_i hsub
      · simp at hok
      rw [checked_add_eq_some] at hadd
      rw [checked_sub_eq_some] at hsub
      obtain ⟨hlt, rfl⟩ := hadd
      obtain ⟨hle, rfl⟩ := hsub
      simp only [Raw.mk.injEq, eq_self_iff_true, true_and] at hok
      subst hok
      simp [creditsSeller]
      omega
  | release b k sg =>
      simp only [runRaw, ReleaseV2.process] at hok
      split_ifs at hok <;>
        try simp only [Raw.mk.injEq, Option.some_ne_none, false_and] at hok
      split at hok <;> rename_i hadd
      · simp at hok
      split at hok <;> rename_i hsub
      · simp at hok
      rw [checked_add_eq_some] at hadd
      rw [checked_sub_eq_some] at hsub
      obtain ⟨hlt, rfl⟩ := hadd
      obtain ⟨hle, rfl⟩ := hsub
      simp only [Raw.mk.injEq, eq_self_iff_true, true_and] at hok
      subst hok
      simp [creditsSeller]
      omega
  | refund a b k sg now =>
      simp only [runRaw, RefundV2.process] at hok
      split_ifs at hok <;>
        try simp only [Raw.mk.injEq, Option.some_ne_none, false_and] at hok
      split at hok <;> rename_i hadd
      · simp at hok
      split at hok <;> rename_i hsub
      · simp at hok
      rw [checked_add_eq_some] at hadd
      rw [checked_sub_eq_some] at hsub
      obtain ⟨hlt, rfl⟩ := hadd
      obtain ⟨hle, rfl⟩ := hsub
      simp only [Raw.mk.injEq, eq_self_iff_true, true_and] at hok
      subst hok
      simp [creditsSeller]
      omega
  | arbitrate ar b k sg d =>
      cases d with
      | nil =>
          simp only [runRaw, Arbitrate.process] at hok
          split_ifs at hok <;>
            simp only [Raw.mk.injEq, Option.some_ne_none, false_and] at hok
      | cons d0 rest =>
          simp only [runRaw, Arbitrate.process] at hok
          split_ifs at hok with h1 h2 h3 h4 h5 h6 h7 <;>
            try simp only [Raw.mk.injEq, Option.some_ne_none, false_and] at hok
          all_goals (
            split at hok <;> rename_i hadd
            · simp at hok
            split at hok <;> rename_i hsub
            · simp at hok
            rw [checked_add_eq_some] at hadd
            rw [checked_sub_eq_some] at hsub
            obtain ⟨hlt, rfl⟩ := hadd
            obtain ⟨hle, rfl⟩ := hsub
            simp only [Raw.mk.injEq, eq_self_iff_true, true_and] at hok
            subst hok
            simp_all [creditsSeller]
            omega)

theorem c1_terminal_transition_conserves_balances_witness :
    invoke (Op.release 1 2 true) baseState = .ok releasedState ∧
    isTerminal releasedState.escrow_data.status ∧
    (releasedState.escrow_data.amount = baseState.escrow_data.amount ∧
     releasedState.escrow_lamports + baseState.escrow_data.amount =
       baseState.escrow_lamports ∧
     (if creditsSeller (Op.release 1 2 true) then
         releasedState.seller_lamports =
           baseState.seller_lamports + baseState.escrow_data.amount ∧
         releasedState.buyer_lamports = baseState.buyer_lamports
       else
         releasedState.buyer_lamports =
           baseState.buyer_lamports + baseState.escrow_data.amount ∧
         releasedState.seller_lamports = baseState.seller_lamports) ∧
     releasedState.escrow_lamports + releasedState.buyer_lamports +
         releasedState.seller_lamports =
       baseState.escrow_lamports + baseState.buyer_lamports +
         baseState.seller_lamports) :=
  ⟨rfl, by decide,
    c1_terminal_transition_conserves_balances (Op.release 1 2 true) baseState
      releasedState rfl (by decide)⟩

theorem isOkE_invoke_iff (op : Op) (s : EscrowState) :
    isOkE (invoke op s) = true ↔ (runRaw op s).result = none := by
  unfold invoke isOkE
  cases hr : runRaw op s with
  | mk result state => cases result <;> simp_all

/-- C3: a well-formed Refund on a non-terminal record is permitted exactly
when the signing authority is the stored seller, or the stored buyer with
the timeout window elapsed (`now >= created_at + timeout_seconds`,
evaluated only when `timeout_seconds > 0`) or status still Active, or the
stored arbitrator while status is Disputed; every other combination is
denied.  (Stated away from the u64 deadline-overflow regime, which C10
covers, and with a feasible transfer so that success is observable.) -/
theorem c3_refund_authorization_iff (a b k now : Nat) (s : EscrowState)
    (hb : b = s.escrow_data.buyer) (hk : k = s.escrow_data.seller)
    (hdisc : s.escrow_data.disc = ESCROW_DISC)
    (hterm : ¬ isTerminal s.escrow_data.status)
    (hof : s.escrow_data.created_at + s.escrow_data.timeout_seconds < U64LIM)
    (hfa : s.buyer_lamports + s.escrow_data.amount < U64LIM)
    (hfs : s.escrow_data.amount ≤ s.escrow_lamports) :
    isOkE (invoke (Op.refund a b k true now) s) = true ↔
      (a = s.escrow_data.seller ∨
       (a = s.escrow_data.buyer ∧
         ((0 < s.escrow_data.timeout_seconds ∧
            s.escrow_data.created_at + s.escrow_data.timeout_seconds ≤ now) ∨
          s.escrow_data.status = STATUS_ACTIVE)) ∨
       (a = s.escrow_data.arbitrator ∧
         s.escrow_data.status = STATUS_DISPUTED)) := by
  subst hb; subst hk
  have htr : timeoutReached now s.escrow_data.created_at
        s.escrow_data.timeout_seconds = true ↔
      (0 < s.escrow_data.timeout_seconds ∧
        s.escrow_data.created_at + s.escrow_data.timeout_seconds ≤ now) := by
    unfold timeoutReached
    rw [Nat.mod_eq_of_lt hof]
    simp
  have h1 : ¬ (s.escrow_data.disc ≠ ESCROW_DISC) := by simp [hdisc]
  have h2 : ¬ (s.escrow_data.buyer ≠ s.escrow_data.buyer ∨
      s.escrow_data.seller ≠ s.escrow_data.seller) := by simp
  have h3 : ¬ (s.escrow_data.status = STATUS_RELEASED ∨
      s.escrow_data.status = STATUS_REFUNDED) := by
    simpa [isTerminal] using hterm
  rw [isOkE_invoke_iff]
  simp only [runRaw, RefundV2.process, if_neg, h1, h2, h3, ite_false,
    not_false_iff]
  simp only [htr]
  by_cases hcr : (a = s.escrow_data.seller ∨
      (a = s.escrow_data.buyer ∧
        ((0 < s.escrow_data.timeout_seconds ∧
           s.escrow_data.created_at + s.escrow_data.timeout_seconds ≤ now) ∨
         s.escrow_data.status = STATUS_ACTIVE)) ∨
      (a = s.escrow_data.arbitrator ∧
        s.escrow_data.status = STATUS_DISPUTED))
  · simp [hcr, checked_add, checked_sub, hfa, hfs]
  · simp [hcr]

theorem c3_refund_authorization_iff_witness :
    isOkE (invoke (Op.refund 2 1 2 true 0) baseState) = true :=
  (c3_refund_authorization_iff 2 1 2 0 baseState rfl rfl rfl (by decide)
      (by decide) (by decide) (by decide)).mpr (Or.inl rfl)

/-- C9: every successful post-creation operation changes at most the status
and flags bytes of the record: type tag, buyer, seller, arbitrator, mint,
amount, created_at, timeout_seconds, terms_hash and the derivation nonce
are untouched, and flags only ever gain bits through bitwise OR. -/
theorem c9_frame_only_status_and_flags (op : Op) (s t : EscrowState)
    (hok : invoke op s = .ok t) :
    t.escrow_data.disc = s.escrow_data.disc ∧
    t.escrow_data.buyer = s.escrow_data.buyer ∧
    t.escrow_data.seller = s.escrow_data.seller ∧
    t.escrow_data.arbitrator = s.escrow_data.arbitrator ∧
    t.escrow_data.mint = s.escrow_data.mint ∧
    t.escrow_data.amount = s.escrow_data.amount ∧
    t.escrow_data.created_at = s.escrow_data.created_at ∧
    t.escrow_data.timeout_seconds = s.escrow_data.timeout_seconds ∧
    t.escrow_data.terms_hash = s.escrow_data.terms_hash ∧
    t.escrow_data.bump = s.escrow_data.bump ∧
    ∃ m, t.escrow_data.flags = s.escrow_data.flags ||| m := by
  rw [invoke_eq_ok_iff] at hok
  cases op with
  | markDelivered k sg =>
      simp only [runRaw, MarkDelivered.process] at hok
      split_ifs at hok <;>
        simp only [Raw.mk.injEq, Option.some_ne_none, false_and,
          eq_self_iff_true, true_and] at hok
      subst hok
      exact ⟨rfl, rfl, rfl, rfl, rfl, rfl, rfl, rfl, rfl, rfl,
        FLAG_SELLER_DELIVERED, rfl⟩
  | dispute a sg =>
      simp only [runRaw, Dispute.process] at hok
      split_ifs at hok <;>
        simp only [Raw.mk.injEq, Option.some_ne_none, false_and,
          eq_self_iff_true, true_and] at hok <;>
        (subst hok
         exact ⟨rfl, rfl, rfl, rfl, rfl, rfl, rfl, rfl, rfl, rfl, _, rfl⟩)
  | acceptDelivery b k sg =>
      simp only [runRaw, AcceptDelivery.process] at hok
      split_ifs at hok <;>
        try simp only [Raw.mk.injEq, Option.some_ne_none, false_and] at hok
      split at hok <;> rename_i hadd
      · simp at hok
      split at hok <;> rename_i hsub
      · simp at hok
      simp only [Raw.mk.injEq, eq_self_iff_true, true_and] at hok
      subst hok
      exact ⟨rfl, rfl, rfl, rfl, rfl, rfl, rfl, rfl, rfl, rfl,
        FLAG_BUYER_ACCEPTED, rfl⟩
  | release b k sg =>
      simp only [runRaw, ReleaseV2.process] at hok
      split_ifs at hok <;>
        try simp only [Raw.mk.injEq, Option.some_ne_none, false_and] at hok
      split at hok <;> rename_i hadd
      · simp at hok
      split at hok <;> rename_i hsub
      · simp at hok
      simp only [Raw.mk.injEq, eq_self_iff_true, true_and] at hok
      subst hok
      exact ⟨rfl, rfl, rfl, rfl, rfl, rfl, rfl, rfl, rfl, rfl,
        0, by simp⟩
  | refund a b k sg now =>
      simp only [runRaw, RefundV2.process] at hok
      split_ifs at hok <;>
        try simp only [Raw.mk.injEq, Option.some_ne_none, false_and] at hok
      split at hok <;> rename_i hadd
      · simp at hok
      split at hok <;> rename_i hsub
      · simp at hok
      simp only [Raw.mk.injEq, eq_self_iff_true, true_and] at hok
      subst hok
      exact ⟨rfl, rfl, rfl, rfl, rfl, rfl, rfl, rfl, rfl, rfl,
        0, by simp⟩
  | arbitrate ar b k sg d =>
      cases d with
      | nil =>
          simp only [runRaw, Arbitrate.process] at hok
          split_ifs at hok <;>
            simp only [Raw.mk.injEq, Option.some_ne_none, false_and] at hok
      | cons d0 rest =>
          simp only [runRaw, Arbitrate.process] at hok
          split_ifs at hok <;>
            try simp only [Raw.mk.injEq, Option.some_ne_none, false_and] at hok
          all_goals (
            split at hok <;> rename_i hadd
            · simp at hok
            split at hok <;> rename_i hsub
            · simp at hok
            simp only [Raw.mk.injEq, eq_self_iff_true, true_and] at hok
            subst hok
            exact ⟨rfl, rfl, rfl, rfl, rfl, rfl, rfl, rfl, rfl, rfl,
              0, by simp⟩)

theorem c9_frame_only_status_and_flags_witness :
    invoke (Op.markDelivered 2 true) baseState =
      .ok { baseState with escrow_data := { baseRec with
        flags := 1, status := STATUS_DELIVERED } } ∧
    ∃ m, ({ baseState with escrow_data := { baseRec with
        flags := 1, status := STATUS_DELIVERED } } :
          EscrowState).escrow_data.flags = baseState.escrow_data.flags ||| m :=
  ⟨rfl, (c9_frame_only_status_and_flags (Op.markDelivered 2 true) baseState
      _ rfl).2.2.2.2.2.2.2.2.2.2⟩

/-- C4 counterexample: against a record whose status is Accepted (2), which
is neither Active nor Delivered, Release succeeds instead of failing with
InvalidState — the code only bars Disputed, Released and Refunded
("Can release from Active, Delivered, or Accepted"). -/
theorem c4_release_from_accepted_succeeds_cex :
    ¬((stateWithStatus STATUS_ACCEPTED).escrow_data.status = STATUS_ACTIVE ∨
      (stateWithStatus STATUS_ACCEPTED).escrow_data.status = STATUS_DELIVERED) ∧
    isOkE (invoke (Op.release 1 2 true)
      (stateWithStatus STATUS_ACCEPTED)) = true := by
  exact ⟨by decide, rfl⟩

/-- C4 amended: a well-formed Release fails with `InvalidState` (realized
as `invalidAccountData`), leaving everything unchanged, exactly when status
is Disputed, Released or Refunded — in particular it is barred while
Disputed — and from every other status (Active, Delivered, and also the
reserved Accepted) the status gate passes and a feasible transfer makes
the operation succeed. -/
theorem c4_release_status_gate (b k : Nat) (s : EscrowState)
    (hb : b = s.escrow_data.buyer) (hk : k = s.escrow_data.seller)
    (hdisc : s.escrow_data.disc = ESCROW_DISC) :
    (s.escrow_data.status = STATUS_DISPUTED ∨
        s.escrow_data.status = STATUS_RELEASED ∨
        s.escrow_data.status = STATUS_REFUNDED →
      invoke (Op.release b k true) s = .error .invalidAccountData ∧
        (runRaw (Op.release b k true) s).state = s) ∧
    (¬(s.escrow_data.status = STATUS_DISPUTED ∨
        s.escrow_data.status = STATUS_RELEASED ∨
        s.escrow_data.status = STATUS_REFUNDED) →
      s.seller_lamports + s.escrow_data.amount < U64LIM →
      s.escrow_data.amount ≤ s.escrow_lamports →
      isOkE (invoke (Op.release b k true) s) = true) := by
  subst hb; subst hk
  constructor
  · intro hst
    have hr : runRaw (Op.release s.escrow_data.buyer s.escrow_data.seller true)
        s = ⟨some .invalidAccountData, s⟩ := by
      simp [runRaw, ReleaseV2.process, hdisc, hst]
    exact ⟨by rw [invoke_eq_error_iff, hr], by rw [hr]⟩
  · intro hst hfa hfs
    rw [isOkE_invoke_iff]
    simp [runRaw, ReleaseV2.process, hdisc, hst, checked_add, checked_sub,
      hfa, hfs]

theorem c4_release_status_gate_witness :
    invoke (Op.release 1 2 true) (stateWithStatus STATUS_DISPUTED) =
      .error .invalidAccountData :=
  ((c4_release_status_gate 1 2 (stateWithStatus STATUS_DISPUTED)
      rfl rfl rfl).1 (by decide)).1

/-- C5 counterexample: a Dispute raised by a party that signed but is
neither the stored buyer (1) nor the stored seller (2) fails with
`invalidAccountData` — the spec's `InvalidRecord` — and not with
`missingRequiredSignature` (`MissingAuthorization`) as the claim states. -/
theorem c5_role_mismatch_error_cex :
    errOf (invoke (Op.dispute 7 true) baseState) = some .invalidAccountData ∧
    errOf (invoke (Op.dispute 7 true) baseState) ≠
      some .missingRequiredSignature := by
  exact ⟨rfl, by decide⟩

/-- C5 amended: the code does not separate role mismatches from address
mismatches.  A signing authority lacking the required role — Dispute by a
non-party, Refund by a holder of none of the three roles — fails with the
same `invalidAccountData` error used for address mismatches, while
`missingRequiredSignature` is returned exactly when the operation's
designated signer account did not sign. -/
theorem c5_role_mismatch_shares_invalid_record_error :
    (∀ (a : Nat) (s : EscrowState), s.escrow_data.disc = ESCROW_DISC →
      a ≠ s.escrow_data.buyer → a ≠ s.escrow_data.seller →
      invoke (Op.dispute a true) s = .error .invalidAccountData) ∧
    (∀ (a b k now : Nat) (s : EscrowState),
      s.escrow_data.disc = ESCROW_DISC →
      b = s.escrow_data.buyer → k = s.escrow_data.seller →
      ¬ isTerminal s.escrow_data.status →
      a ≠ s.escrow_data.buyer → a ≠ s.escrow_data.seller →
      a ≠ s.escrow_data.arbitrator →
      invoke (Op.refund a b k true now) s = .error .invalidAccountData) ∧
    (∀ (op : Op) (s : EscrowState), signerFlag op = false →
      invoke op s = .error .missingRequiredSignature) := by
  refine ⟨?_, ?_, ?_⟩
  · intro a s hdisc hab hak
    rw [invoke_eq_error_iff]
    simp [runRaw, Dispute.process, hdisc, hab, hak]
  · intro a b k now s hdisc hb hk hterm hab hak haa
    subst hb; subst hk
    have h3 : ¬ (s.escrow_data.status = STATUS_RELEASED ∨
        s.escrow_data.status = STATUS_REFUNDED) := by
      simpa [isTerminal] using hterm
    rw [invoke_eq_error_iff]
    simp [runRaw, RefundV2.process, hdisc, h3, hab, hak, haa]
  · intro op s hsg
    rw [invoke_eq_error_iff]
    cases op <;> simp_all [signerFlag, runRaw, MarkDelivered.process,
      AcceptDelivery.process, ReleaseV2.process, RefundV2.process,
      Dispute.process, Arbitrate.process]

theorem c5_role_mismatch_shares_invalid_record_error_witness :
    invoke (Op.dispute 7 true) baseState = .error .invalidAccountData ∧
    invoke (Op.markDelivered 2 false) baseState =
      .error .missingRequiredSignature :=
  ⟨c5_role_mismatch_shares_invalid_record_error.1 7 baseState rfl
      (by decide) (by decide),
    c5_role_mismatch_shares_invalid_record_error.2.2
      (Op.markDelivered 2 false) baseState rfl⟩

theorem runRaw_state_cases (op : Op) (s : EscrowState) :
    (runRaw op s).state = s ∨ (runRaw op s).result = none ∨
    (runRaw op s).result = some .arithmeticOverflow ∨
    (runRaw op s).result = some .insufficientFunds := by
  cases op <;>
    simp only [runRaw, MarkDelivered.process, AcceptDelivery.process,
      ReleaseV2.process, RefundV2.process, Dispute.process,
      Arbitrate.process] <;>
    (repeat' split) <;> simp

/-- C8: when an invocation fails with any error, the committed state — the
record, its status byte, and all balances — is exactly the pre-call state
(host atomicity, modeled by `commit`); moreover for every error other than
the two ArithmeticFault variants raised during the fund movement, even the
raw handler had not yet mutated anything when it failed. -/
theorem c8_failed_invocation_leaves_state_unchanged (op : Op)
    (s : EscrowState) (e : PErr) (herr : (runRaw op s).result = some e) :
    commit op s = s ∧
    (e ≠ .arithmeticOverflow → e ≠ .insufficientFunds →
      (runRaw op s).state = s) := by
  constructor
  · unfold commit
    cases hr : runRaw op s with
    | mk r st => cases r <;> simp_all
  · intro h1 h2
    rcases runRaw_state_cases op s with h | h | h | h
    · exact h
    · rw [h] at herr; exact Option.noConfusion herr
    · rw [h] at herr; exact absurd (Option.some.inj herr).symm h1
    · rw [h] at herr; exact absurd (Option.some.inj herr).symm h2

theorem c8_failed_invocation_leaves_state_unchanged_witness :
    (runRaw (Op.markDelivered 2 false) baseState).result =
      some .missingRequiredSignature ∧
    commit (Op.markDelivered 2 false) baseState = baseState :=
  ⟨rfl, (c8_failed_invocation_leaves_state_unchanged
      (Op.markDelivered 2 false) baseState .missingRequiredSignature rfl).1⟩

/-- C10: the Refund deadline `created_at + timeout_seconds` is an unchecked
u64 addition.  When the true sum is at least 2^64 it wraps: the eligibility
comparison is made against `created_at + timeout_seconds - 2^64`, and the
operation simply proceeds with the wrapped deadline — no error from the
taxonomy is produced for the overflow.  In particular a buyer whose true
deadline lies far in the future is granted the refund once `now` passes
the wrapped value. -/
theorem c10_refund_deadline_wraps (a b k now : Nat) (s : EscrowState)
    (hb : b = s.escrow_data.buyer) (hk : k = s.escrow_data.seller)
    (hdisc : s.escrow_data.disc = ESCROW_DISC)
    (hca : s.escrow_data.created_at < U64LIM)
    (hts : s.escrow_data.timeout_seconds < U64LIM)
    (hov : U64LIM ≤ s.escrow_data.created_at + s.escrow_data.timeout_seconds) :
    (timeoutReached now s.escrow_data.created_at
        s.escrow_data.timeout_seconds = true ↔
      s.escrow_data.created_at + s.escrow_data.timeout_seconds - U64LIM ≤
        now) ∧
    (a = s.escrow_data.buyer → s.escrow_data.status = STATUS_DELIVERED →
      s.escrow_data.created_at + s.escrow_data.timeout_seconds - U64LIM ≤
        now →
      s.buyer_lamports + s.escrow_data.amount < U64LIM →
      s.escrow_data.amount ≤ s.escrow_lamports →
      isOkE (invoke (Op.refund a b k true now) s) = true) := by
  have hL : U64LIM = 18446744073709551616 := rfl
  have hts0 : 0 < s.escrow_data.timeout_seconds := by omega
  have hmod : (s.escrow_data.created_at + s.escrow_data.timeout_seconds) %
      U64LIM =
      s.escrow_data.created_at + s.escrow_data.timeout_seconds - U64LIM := by
    rw [Nat.mod_eq_sub_mod hov]
    exact Nat.mod_eq_of_lt (by omega)
  have htr : timeoutReached now s.escrow_data.created_at
      s.escrow_data.timeout_seconds = true ↔
      s.escrow_data.created_at + s.escrow_data.timeout_seconds - U64LIM ≤
        now := by
    unfold timeoutReached
    rw [hmod]
    simp [hts0]
  refine ⟨htr, ?_⟩
  intro ha hst hwrap hfa hfs
  subst hb; subst hk; subst ha
  have h3 : ¬ (s.escrow_data.status = STATUS_RELEASED ∨
      s.escrow_data.status = STATUS_REFUNDED) := by
    rw [hst]; decide
  rw [isOkE_invoke_iff]
  simp [runRaw, RefundV2.process, hdisc, h3, htr.mpr hwrap, checked_add,
    checked_sub, hfa, hfs]

theorem c10_refund_deadline_wraps_witness :
    timeoutReached 1 overflowState.escrow_data.created_at
      overflowState.escrow_data.timeout_seconds = true ∧
    isOkE (invoke (Op.refund 1 1 2 true 1) overflowState) = true := by
  have h := c10_refund_deadline_wraps 1 1 2 1 overflowState rfl rfl rfl
      (by decide) (by decide) (by decide)
  exact ⟨h.1.mpr (by decide), h.2 rfl rfl (by decide) (by decide) (by decide)⟩

set_option maxRecDepth 4000 in
/-- C6 counterexample: the buffer length is not validated.  A 194-byte
buffer — shorter than the fixed 195-byte size — with a valid tag is
processed successfully by MarkDelivered instead of failing with
InvalidRecord as the claim states. -/
theorem c6_short_buffer_processed_cex :
    shortEscrowBytes.length < ESCROW_SIZE ∧
    MarkDelivered.processBytes zeros32 true shortEscrowBytes =
      .ok ((shortEscrowBytes.set 193 1).set 192 1) := by
  exact ⟨by decide, by decide⟩

/-- C6 amended: decoding fails with `invalidAccountData` (InvalidRecord)
when the stored type tag differs from the constant, but the buffer size is
never checked against the fixed 195 bytes: a buffer too short for a field
access aborts with an out-of-bounds panic rather than an error from the
taxonomy (and one that happens to cover every accessed field is processed
normally, see the counterexample). -/
theorem c6_tag_checked_size_unchecked :
    (∀ (k data : List Nat), 8 ≤ data.length →
      le64 (data.take 8) ≠ ESCROW_DISC →
      MarkDelivered.processBytes k true data = .err .invalidAccountData) ∧
    (∀ (k data : List Nat), data.length < 8 →
      MarkDelivered.processBytes k true data = .aborted) := by
  constructor
  · intro k data hlen htag
    simp [MarkDelivered.processBytes, read_u64, hlen, htag]
  · intro k data hlen
    simp [MarkDelivered.processBytes, read_u64, Nat.not_le.mpr hlen]

theorem c6_tag_checked_size_unchecked_witness :
    MarkDelivered.processBytes zeros32 true (List.replicate 8 0) =
      .err .invalidAccountData ∧
    MarkDelivered.processBytes zeros32 true [] = .aborted :=
  ⟨c6_tag_checked_size_unchecked.1 zeros32 (List.replicate 8 0) (by decide)
      (by decide),
    c6_tag_checked_size_unchecked.2 zeros32 [] (by decide)⟩

